import Mathlib

/-!
Verification development for the lead-management core of the hsr repository
(src/api/models.py, src/api/lead_views.py, src/api/lead_serializers.py).

The Django data layer is shallowly embedded: a database table is a `List` of
rows, timestamps are `Nat`, a row's nullable columns are `Option`s, and each
endpoint/serializer becomes a pure function returning `Except String _` for
the view's error responses.  Field and function names follow the source.
-/

/-- Lead.STATUS_CHOICES in src/api/models.py: new, contacted, qualified, closed. -/
inductive LeadStatus where
  | new
  | contacted
  | qualified
  | closed
deriving DecidableEq

/-- Lead.PRIORITY_CHOICES in src/api/models.py: low, medium, high, urgent. -/
inductive LeadPriority where
  | low
  | medium
  | high
  | urgent
deriving DecidableEq

/-- Lead.SOURCE_CHOICES in src/api/models.py: contact_form, whatsapp, phone_call, walk_in. -/
inductive LeadSource where
  | contact_form
  | whatsapp
  | phone_call
  | walk_in
deriving DecidableEq

/-- String form of a status, as stored by the CharField choices. -/
def status_str : LeadStatus → String
  | .new => "new"
  | .contacted => "contacted"
  | .qualified => "qualified"
  | .closed => "closed"

/-- The Lead model (src/api/models.py, class Lead), with the columns the
lead endpoints read or write.  `contacted_by` and `project` are foreign keys,
kept as optional ids; timestamps are `Nat`. -/
structure Lead where
  id : Nat
  name : String
  email : String
  phone : String
  project : Option Nat
  message : String
  source : LeadSource
  status : LeadStatus
  priority : LeadPriority
  preferred_contact_method : String
  contacted_at : Option Nat
  contacted_by : Option Nat
  notes : String
  next_follow_up : Option Nat
  follow_up_count : Nat
  is_deleted : Bool
  deleted_at : Option Nat
  created_at : Nat
deriving DecidableEq

/-- SoftDeleteModel.soft_delete (src/api/models.py): sets is_deleted and
deleted_at to the current time, then saves. -/
def Lead.soft_delete (l : Lead) (now : Nat) : Lead :=
  { l with is_deleted := true, deleted_at := some now }

/-- SoftDeleteModel.restore (src/api/models.py): clears is_deleted and
deleted_at, then saves. -/
def Lead.restore (l : Lead) : Lead :=
  { l with is_deleted := false, deleted_at := none }

/-- Lead.mark_contacted (src/api/models.py): sets status to contacted,
contacted_at to now, contacted_by to the admin when one is given, and
increments follow_up_count. -/
def Lead.mark_contacted (l : Lead) (now : Nat) (admin_user : Option Nat) : Lead :=
  let l1 : Lead := { l with status := .contacted, contacted_at := some now }
  let l2 : Lead :=
    match admin_user with
    | some a => { l1 with contacted_by := some a }
    | none => l1
  { l2 with follow_up_count := l2.follow_up_count + 1 }

/-- Timestamp rendering used when notes are appended (strftime in the views);
the exact text of the stamp is irrelevant to the claims. -/
def format_ts (now : Nat) : String := toString now

/-- Shared validator of LeadStatusUpdateSerializer.validate_next_follow_up and
LeadAddNoteSerializer.validate_next_follow_up (src/api/lead_serializers.py):
a provided value is rejected exactly when it is before the current time. -/
def validate_next_follow_up (now : Nat) : Option Nat → Bool
  | none => true
  | some t => !(t < now)

/-- Payload of LeadStatusUpdateSerializer: required status choice, optional
blank-allowed notes (empty string when absent), optional next_follow_up. -/
structure StatusUpdateRequest where
  status : LeadStatus
  notes : String := ""
  next_follow_up : Option Nat := none
deriving DecidableEq

/-- LeadStatusUpdateView.post (src/api/lead_views.py): validate, assign the
new status, call mark_contacted on a transition into contacted from another
status, append a status-change note when notes were given, and set
next_follow_up when given. -/
def lead_status_update (now : Nat) (admin : Option Nat) (l : Lead)
    (req : StatusUpdateRequest) : Except String Lead :=
  if validate_next_follow_up now req.next_follow_up then
    let old_status := l.status
    let l1 : Lead := { l with status := req.status }
    let l2 : Lead :=
      if req.status = .contacted ∧ old_status ≠ .contacted then
        l1.mark_contacted now admin
      else l1
    let l3 : Lead :=
      if req.notes ≠ "" then
        { l2 with notes := l2.notes ++ "\n[" ++ format_ts now ++ "] Status changed from '"
            ++ status_str old_status ++ "' to '" ++ status_str req.status ++ "': " ++ req.notes }
      else l2
    let l4 : Lead :=
      match req.next_follow_up with
      | some t => { l3 with next_follow_up := some t }
      | none => l3
    .ok l4
  else
    .error "Validation failed"

/-- Payload of LeadAddNoteSerializer: required note of at least five
characters plus an optional next_follow_up. -/
structure AddNoteRequest where
  note : String
  next_follow_up : Option Nat := none
deriving DecidableEq

/-- LeadAddNoteView.post (src/api/lead_views.py): validate, append the note as
a timestamped line attributed to the acting admin, and set next_follow_up
when given. -/
def lead_add_note (now : Nat) (actor : String) (l : Lead)
    (req : AddNoteRequest) : Except String Lead :=
  if req.note.length < 5 then
    .error "Validation failed"
  else if validate_next_follow_up now req.next_follow_up then
    let l1 : Lead :=
      { l with notes := l.notes ++ "\n[" ++ format_ts now ++ "] " ++ actor ++ ": " ++ req.note }
    let l2 : Lead :=
      match req.next_follow_up with
      | some t => { l1 with next_follow_up := some t }
      | none => l1
    .ok l2
  else
    .error "Validation failed"

/-- Payload of LeadUpdateSerializer (src/api/lead_serializers.py) as used with
partial=True by LeadDetailView.put: each of the eleven writable Meta.fields is
either absent or supplies a new value.  The serializer validates the status
and priority choices (guaranteed here by typing) and has no validator for
next_follow_up. -/
structure LeadUpdateRequest where
  name : Option String := none
  email : Option String := none
  phone : Option String := none
  project : Option (Option Nat) := none
  message : Option String := none
  status : Option LeadStatus := none
  priority : Option LeadPriority := none
  source : Option LeadSource := none
  preferred_contact_method : Option String := none
  next_follow_up : Option (Option Nat) := none
  notes : Option String := none
deriving DecidableEq

/-- LeadDetailView.put (src/api/lead_views.py): serializer.save() assigns the
provided writable fields onto the instance and leaves everything else alone. -/
def lead_update (u : LeadUpdateRequest) (l : Lead) : Lead :=
  { l with
    name := u.name.getD l.name
    email := u.email.getD l.email
    phone := u.phone.getD l.phone
    project := u.project.getD l.project
    message := u.message.getD l.message
    status := u.status.getD l.status
    priority := u.priority.getD l.priority
    source := u.source.getD l.source
    preferred_contact_method := u.preferred_contact_method.getD l.preferred_contact_method
    next_follow_up := u.next_follow_up.getD l.next_follow_up
    notes := u.notes.getD l.notes }

/-- Allowed page sizes of LeadsListView.get (src/api/lead_views.py). -/
def allowed_page_sizes : List Int := [10, 25, 50, 100]

/-- LeadsListView.get page_size normalisation: a value outside the allowed
set is replaced by the default 25. -/
def snap_page_size (page_size : Int) : Int :=
  if page_size ∈ allowed_page_sizes then page_size else 25

/-- Modelled from the spec wording "page-size is snapped to the nearest value
in a fixed allowed set": the member of allowed_page_sizes at minimal absolute
distance from the request.  Used only to compare the spec's wording with the
source's snap_page_size. -/
def nearest_allowed_page_size (n : Int) : Int :=
  allowed_page_sizes.foldl
    (fun best a => if (n - a).natAbs < (n - best).natAbs then a else best) 10

/-- BulkLeadActionSerializer action choices (src/api/lead_serializers.py). -/
inductive BulkAction where
  | delete
  | restore
  | change_status
  | change_priority
  | assign_contact
deriving DecidableEq

/-- Payload of BulkLeadActionSerializer: the id list, the action, and the
optional per-action parameters. -/
structure BulkRequest where
  lead_ids : List Nat
  action : BulkAction
  status : Option LeadStatus := none
  priority : Option LeadPriority := none
  contacted_by : Option Nat := none
deriving DecidableEq

/-- BulkLeadActionSerializer validation: non-empty id list of at most 100 ids
(validate_lead_ids) and the cross-field requirements of validate(): a truthy
status for change_status, priority for change_priority, contacted_by for
assign_contact (a falsy integer 0 is rejected like an absent one). -/
def bulk_valid (req : BulkRequest) : Bool :=
  !req.lead_ids.isEmpty
    && decide (req.lead_ids.length ≤ 100)
    && (req.action != .change_status || req.status.isSome)
    && (req.action != .change_priority || req.priority.isSome)
    && (req.action != .assign_contact || req.contacted_by.getD 0 != 0)

/-- The queryset BulkLeadActionsView.post operates on: the active manager
(is_deleted = false) filtered by id__in for delete/change_status/
change_priority/assign_contact, and all_objects filtered by id__in for
restore. -/
def bulk_scope (a : BulkAction) (db : List Lead) (ids : List Nat) : List Lead :=
  match a with
  | .restore => db.filter (fun l => ids.contains l.id)
  | _ => db.filter (fun l => ids.contains l.id && !l.is_deleted)

/-- The per-row precondition under which a matched lead is counted as
affected: restore touches only currently deleted rows, every other action
only active rows (already by its queryset scope). -/
def bulk_eligible (a : BulkAction) (l : Lead) : Bool :=
  match a with
  | .restore => l.is_deleted
  | _ => !l.is_deleted

/-- The row transformation each action performs on an eligible matched lead. -/
def bulk_apply (now : Nat) (req : BulkRequest) (l : Lead) : Lead :=
  match req.action with
  | .delete => l.soft_delete now
  | .restore => l.restore
  | .change_status => { l with status := req.status.getD l.status }
  | .change_priority => { l with priority := req.priority.getD l.priority }
  | .assign_contact => { l with contacted_by := req.contacted_by }

/-- BulkLeadActionsView.post (src/api/lead_views.py): validate, fetch the
scoped queryset, answer not-found when it is empty, then run the selected
action and report how many rows it touched.  `admins` is the AdminUser table
(as ids) consulted by assign_contact. -/
def bulk_lead_actions (now : Nat) (admins : List Nat) (db : List Lead)
    (req : BulkRequest) : Except String (List Lead × Nat) :=
  if !(bulk_valid req) then
    .error "Validation failed"
  else
    let matched := bulk_scope req.action db req.lead_ids
    if matched.isEmpty then
      .error "No leads found with provided IDs"
    else
      match req.action with
      | .delete =>
          .ok (db.map (fun l => if req.lead_ids.contains l.id && !l.is_deleted
                                then l.soft_delete now else l),
               matched.length)
      | .restore =>
          .ok (db.map (fun l => if req.lead_ids.contains l.id && l.is_deleted
                                then l.restore else l),
               (matched.filter (fun l => l.is_deleted)).length)
      | .change_status =>
          match req.status with
          | some s =>
              .ok (db.map (fun l => if req.lead_ids.contains l.id && !l.is_deleted
                                    then { l with status := s } else l),
                   matched.length)
          | none => .error "Validation failed"
      | .change_priority =>
          match req.priority with
          | some p =>
              .ok (db.map (fun l => if req.lead_ids.contains l.id && !l.is_deleted
                                    then { l with priority := p } else l),
                   matched.length)
          | none => .error "Validation failed"
      | .assign_contact =>
          match req.contacted_by with
          | some v =>
              if admins.contains v then
                .ok (db.map (fun l => if req.lead_ids.contains l.id && !l.is_deleted
                                      then { l with contacted_by := some v } else l),
                     matched.length)
              else .error "Admin user not found"
          | none => .error "Validation failed"

/-- A singleton-config row (SystemStatus, ContactSettings, HomePageContent in
src/api/models.py): a primary key plus the payload columns, abstracted over
their concrete record type since the three models share the same save and
get_current logic. -/
structure ConfigRow (α : Type) where
  id : Nat
  fields : α
deriving DecidableEq

/-- get_current (classmethod on each singleton model):
objects.get_or_create(id=1) — return the row with pk 1, creating it with the
column defaults when missing. -/
def get_current {α : Type} (default : α) (table : List (ConfigRow α)) :
    ConfigRow α × List (ConfigRow α) :=
  match table.find? (fun r => r.id == 1) with
  | some r => (r, table)
  | none => (⟨1, default⟩, table ++ [⟨1, default⟩])

/-- save() on a new (pk-less) instance of a singleton model: raises
ValidationError when a row already exists, otherwise inserts the first row
(autoincrement pk 1 on the empty table). -/
def config_save_new {α : Type} (fields : α) (table : List (ConfigRow α)) :
    Except String (List (ConfigRow α)) :=
  if table.isEmpty then .ok (table ++ [⟨1, fields⟩])
  else .error "Only one instance is allowed."

/-- save() on an instance that was loaded from the table (pk set): updates the
row with that pk in place. -/
def config_save_existing {α : Type} (r : ConfigRow α) (table : List (ConfigRow α)) :
    List (ConfigRow α) :=
  table.map (fun x => if x.id == r.id then r else x)

/-- Tables reachable from the empty database through the operations the
application performs on a singleton-config model: get_current, saving a brand
new instance, and saving back an instance previously loaded from the table. -/
inductive ConfigReachable {α : Type} (d : α) : List (ConfigRow α) → Prop where
  | empty : ConfigReachable d []
  | step_get (t : List (ConfigRow α)) :
      ConfigReachable d t → ConfigReachable d (get_current d t).2
  | step_new (f : α) (t t' : List (ConfigRow α)) :
      ConfigReachable d t → config_save_new f t = .ok t' → ConfigReachable d t'
  | step_update (r : ConfigRow α) (t : List (ConfigRow α)) :
      ConfigReachable d t → (∃ x ∈ t, x.id = r.id) →
      ConfigReachable d (config_save_existing r t)

/-- A concrete active lead with status new, used by witnesses. -/
def lead1 : Lead :=
  { id := 1, name := "Rajesh Kumar", email := "rajesh@example.com",
    phone := "+919876543210", project := none,
    message := "Looking for a 2BHK, please call back",
    source := .contact_form, status := .new, priority := .medium,
    preferred_contact_method := "phone", contacted_at := none,
    contacted_by := none, notes := "first contact pending",
    next_follow_up := none, follow_up_count := 0,
    is_deleted := false, deleted_at := none, created_at := 0 }

/-- A second concrete active lead. -/
def lead2 : Lead :=
  { lead1 with id := 2, name := "Priya Sharma", email := "priya@example.com" }

/-- A lead that was soft-deleted at time 5. -/
def lead_deleted5 : Lead :=
  { lead1 with id := 3, is_deleted := true, deleted_at := some 5 }

/-- A status-update request that moves a lead to contacted, with no note and
no follow-up. -/
def status_req_contacted : StatusUpdateRequest :=
  { status := .contacted }

/-- A status-update request carrying a follow-up time of 3. -/
def status_req_past_follow_up : StatusUpdateRequest :=
  { status := .qualified, next_follow_up := some 3 }

/-- A generic-update request that only sets status to contacted. -/
def upd_req_contacted : LeadUpdateRequest :=
  { status := some .contacted }

/-- A generic-update request that only sets next_follow_up, to the time 3. -/
def upd_req_past_follow_up : LeadUpdateRequest :=
  { next_follow_up := some (some 3) }

/-- An add-note request with a five-character note and no follow-up. -/
def note_req_hello : AddNoteRequest :=
  { note := "hello" }

/-- A bulk change_status request over ids 1, 2 and the missing id 999. -/
def bulk_req_cs : BulkRequest :=
  { lead_ids := [1, 2, 999], action := .change_status, status := some .qualified }

/-- A bulk delete request naming only the nonexistent id 999. -/
def bulk_req_missing : BulkRequest :=
  { lead_ids := [999], action := .delete }

/-- Claim C4 counterexample: soft_delete is not a no-op on an already-deleted
lead — a second call at time 9 overwrites a deleted_at of 5 with 9. -/
theorem c4_counterexample :
    lead_deleted5.is_deleted = true
    ∧ lead_deleted5.deleted_at = some 5
    ∧ (lead_deleted5.soft_delete 9).deleted_at = some 9
    ∧ (lead_deleted5.soft_delete 9).deleted_at ≠ lead_deleted5.deleted_at := by
  refine ⟨rfl, rfl, rfl, ?_⟩
  decide

/-- Claim C4 (amended): soft_delete sets is_deleted = true and deleted_at to
the current time on every call; a repeated call equals a single soft_delete at
the later time, so it leaves is_deleted unchanged but refreshes deleted_at and
is a no-op only when the clock has not advanced. -/
theorem soft_delete_spec (now : Nat) (l : Lead) :
    (l.soft_delete now).is_deleted = true
    ∧ (l.soft_delete now).deleted_at = some now
    ∧ ∀ t2 : Nat, (l.soft_delete now).soft_delete t2 = l.soft_delete t2 := by
  refine ⟨rfl, rfl, fun t2 => rfl⟩

/-- Claim C6: soft_delete followed by restore returns the lead to exactly its
prior state except that is_deleted = false and deleted_at = none; no other
field differs. -/
theorem soft_delete_restore_inverse (now : Nat) (l : Lead) :
    (l.soft_delete now).restore = { l with is_deleted := false, deleted_at := none } := by
  rfl

/-- Claim C7 counterexample: the list endpoint replaces a disallowed
page_size of 90 by the default 25, not by the nearest allowed value 100. -/
theorem c7_counterexample :
    snap_page_size 90 = 25
    ∧ nearest_allowed_page_size 90 = 100
    ∧ snap_page_size 90 ≠ nearest_allowed_page_size 90 := by
  refine ⟨by decide, by decide, by decide⟩

/-- Claim C7 (amended): a requested page_size in the allowed set
{10, 25, 50, 100} is kept; any other value falls back to the default 25 (the
result is always an allowed size and the request never errors). -/
theorem snap_page_size_spec (n : Int) :
    snap_page_size n ∈ allowed_page_sizes
    ∧ (n ∉ allowed_page_sizes → snap_page_size n = 25)
    ∧ (n ∈ allowed_page_sizes → snap_page_size n = n) := by
  refine ⟨?_, fun h => ?_, fun h => ?_⟩
  · by_cases h : n ∈ allowed_page_sizes
    · simp [snap_page_size, h]
    · simp only [snap_page_size, h, if_false]
      decide
  · simp [snap_page_size, h]
  · simp [snap_page_size, h]

/-- Claim C7 witness: page_size 37 is not allowed and snaps to the default. -/
theorem snap_page_size_witness :
    (37 : Int) ∉ allowed_page_sizes ∧ snap_page_size 37 = 25 :=
  ⟨by decide, (snap_page_size_spec 37).2.1 (by decide)⟩

/-- Claim C10: the generic lead update (PUT) writes only the eleven serializer
fields; id, follow_up_count, contacted_at, contacted_by, is_deleted,
deleted_at and created_at are untouched for every input. -/
theorem lead_update_frame (u : LeadUpdateRequest) (l : Lead) :
    (lead_update u l).id = l.id
    ∧ (lead_update u l).follow_up_count = l.follow_up_count
    ∧ (lead_update u l).contacted_at = l.contacted_at
    ∧ (lead_update u l).contacted_by = l.contacted_by
    ∧ (lead_update u l).is_deleted = l.is_deleted
    ∧ (lead_update u l).deleted_at = l.deleted_at
    ∧ (lead_update u l).created_at = l.created_at := by
  refine ⟨rfl, rfl, rfl, rfl, rfl, rfl, rfl⟩

/-- Claim C1 counterexample: the generic lead update (PUT), an admin
operation, sets a new lead's status to contacted without setting
contacted_at or contacted_by and without incrementing follow_up_count. -/
theorem c1_counterexample :
    lead1.status ≠ LeadStatus.contacted
    ∧ (lead_update upd_req_contacted lead1).status = LeadStatus.contacted
    ∧ (lead_update upd_req_contacted lead1).contacted_at = none
    ∧ (lead_update upd_req_contacted lead1).contacted_by = none
    ∧ (lead_update upd_req_contacted lead1).follow_up_count = lead1.follow_up_count := by
  refine ⟨by decide, rfl, rfl, rfl, rfl⟩

/-- Claim C1 (amended): on the status-update endpoint, setting a
non-contacted lead's status to contacted sets contacted_at to the transition
time, sets contacted_by to the acting admin when one is provided, and
increments follow_up_count by exactly 1; setting an already-contacted lead to
contacted again leaves contacted_at and follow_up_count unchanged.  (The
generic update endpoint and bulk change_status carry none of these side
effects.) -/
theorem status_update_contacted_tracking (now : Nat) (admin : Option Nat)
    (l : Lead) (req : StatusUpdateRequest)
    (hs : req.status = LeadStatus.contacted)
    (hv : validate_next_follow_up now req.next_follow_up = true) :
    (∃ l', lead_status_update now admin l req = Except.ok l')
    ∧ ∀ l', lead_status_update now admin l req = Except.ok l' →
        (l.status ≠ LeadStatus.contacted →
          l'.contacted_at = some now
          ∧ l'.follow_up_count = l.follow_up_count + 1
          ∧ ∀ a : Nat, admin = some a → l'.contacted_by = some a)
        ∧ (l.status = LeadStatus.contacted →
          l'.contacted_at = l.contacted_at
          ∧ l'.follow_up_count = l.follow_up_count) := by
  obtain ⟨st, nts, nfu⟩ := req
  dsimp only at hs hv
  subst hs
  constructor
  · simp [lead_status_update, hv]
  · intro l' hok
    by_cases hc : l.status = LeadStatus.contacted
    · refine ⟨fun h => absurd hc h, fun _ => ?_⟩
      cases nfu with
      | none =>
          by_cases hn : nts = ""
          · simp [lead_status_update, hv, hc, hn] at hok
            subst hok
            simp
          · simp [lead_status_update, hv, hc, hn] at hok
            subst hok
            simp
      | some t =>
          by_cases hn : nts = ""
          · simp [lead_status_update, hv, hc, hn] at hok
            subst hok
            simp
          · simp [lead_status_update, hv, hc, hn] at hok
            subst hok
            simp
    · refine ⟨fun _ => ?_, fun h => absurd h hc⟩
      cases admin with
      | none =>
          cases nfu with
          | none =>
              by_cases hn : nts = ""
              · simp [lead_status_update, Lead.mark_contacted, hv, hc, hn] at hok
                subst hok
                simp
              · simp [lead_status_update, Lead.mark_contacted, hv, hc, hn] at hok
                subst hok
                simp
          | some t =>
              by_cases hn : nts = ""
              · simp [lead_status_update, Lead.mark_contacted, hv, hc, hn] at hok
                subst hok
                simp
              · simp [lead_status_update, Lead.mark_contacted, hv, hc, hn] at hok
                subst hok
                simp
      | some a0 =>
          cases nfu with
          | none =>
              by_cases hn : nts = ""
              · simp [lead_status_update, Lead.mark_contacted, hv, hc, hn] at hok
                subst hok
                simp
              · simp [lead_status_update, Lead.mark_contacted, hv, hc, hn] at hok
                subst hok
                simp
          | some t =>
              by_cases hn : nts = ""
              · simp [lead_status_update, Lead.mark_contacted, hv, hc, hn] at hok
                subst hok
                simp
              · simp [lead_status_update, Lead.mark_contacted, hv, hc, hn] at hok
                subst hok
                simp

/-- Claim C1 witness: at time 10, admin 7 moves the new lead1 to contacted
and the tracking fields change as stated. -/
theorem status_update_contacted_witness :
    status_req_contacted.status = LeadStatus.contacted
    ∧ validate_next_follow_up 10 status_req_contacted.next_follow_up = true
    ∧ (∃ l', lead_status_update 10 (some 7) lead1 status_req_contacted = Except.ok l')
    ∧ ∀ l', lead_status_update 10 (some 7) lead1 status_req_contacted = Except.ok l' →
        (lead1.status ≠ LeadStatus.contacted →
          l'.contacted_at = some 10
          ∧ l'.follow_up_count = lead1.follow_up_count + 1
          ∧ ∀ a : Nat, (some 7 : Option Nat) = some a → l'.contacted_by = some a)
        ∧ (lead1.status = LeadStatus.contacted →
          l'.contacted_at = lead1.contacted_at
          ∧ l'.follow_up_count = lead1.follow_up_count) :=
  ⟨rfl, by decide,
   (status_update_contacted_tracking 10 (some 7) lead1 status_req_contacted rfl (by decide)).1,
   (status_update_contacted_tracking 10 (some 7) lead1 status_req_contacted rfl (by decide)).2⟩

/-- Claim C5 counterexample: the generic lead update endpoint accepts a
next_follow_up of 3 even when the current time is 10 (no rejection, the value
is stored), and the status-update validator accepts a value equal to the
current time, which is not strictly in the future. -/
theorem c5_counterexample :
    (3 : Nat) < 10
    ∧ (lead_update upd_req_past_follow_up lead1).next_follow_up = some 3
    ∧ validate_next_follow_up 10 (some 10) = true := by
  refine ⟨by decide, rfl, by decide⟩

/-- Claim C5 (amended): the status-update and add-note endpoints accept a
provided next_follow_up exactly when it is at or after the current time
(values strictly before now are rejected with a validation error, a value
equal to now passes), while the generic lead update endpoint performs no
future-time validation and stores any provided next_follow_up. -/
theorem next_follow_up_validation :
    (∀ now t : Nat, validate_next_follow_up now (some t) = true ↔ now ≤ t)
    ∧ (∀ (now : Nat) (admin : Option Nat) (l : Lead) (req : StatusUpdateRequest),
        validate_next_follow_up now req.next_follow_up = false →
        lead_status_update now admin l req = Except.error "Validation failed")
    ∧ (∀ (now : Nat) (actor : String) (l : Lead) (req : AddNoteRequest),
        validate_next_follow_up now req.next_follow_up = false →
        lead_add_note now actor l req = Except.error "Validation failed")
    ∧ (∀ (u : LeadUpdateRequest) (l : Lead) (t : Option Nat),
        u.next_follow_up = some t → (lead_update u l).next_follow_up = t) := by
  refine ⟨?_, ?_, ?_, ?_⟩
  · intro now t
    simp [validate_next_follow_up, Nat.not_lt]
  · intro now admin l req h
    simp [lead_status_update, h]
  · intro now actor l req h
    simp [lead_add_note, h]
  · intro u l t h
    simp [lead_update, h]

/-- Claim C5 witness: concrete instances of the amended behaviour at time 10
(a boundary value 10 accepted, a past value 3 rejected by the status-update
and add-note endpoints, and stored untouched by the generic update). -/
theorem next_follow_up_validation_witness :
    validate_next_follow_up 10 (some 10) = true
    ∧ lead_status_update 10 none lead1 status_req_past_follow_up
        = Except.error "Validation failed"
    ∧ lead_add_note 10 "Admin" lead1 { note := "hello", next_follow_up := some 3 }
        = Except.error "Validation failed"
    ∧ (lead_update upd_req_past_follow_up lead1).next_follow_up = some 3 :=
  ⟨(next_follow_up_validation.1 10 10).mpr (by decide),
   next_follow_up_validation.2.1 10 none lead1 status_req_past_follow_up (by decide),
   next_follow_up_validation.2.2.1 10 "Admin" lead1 _ (by decide),
   next_follow_up_validation.2.2.2 upd_req_past_follow_up lead1 (some 3) rfl⟩

/-- Claim C8: a valid add-note request appends exactly one timestamped,
attributed line to the existing notes, so the prior notes content is
preserved as a prefix and never replaced. -/
theorem add_note_appends (now : Nat) (actor : String) (l : Lead) (req : AddNoteRequest)
    (h5 : ¬ req.note.length < 5)
    (hv : validate_next_follow_up now req.next_follow_up = true) :
    ∃ l', lead_add_note now actor l req = Except.ok l'
      ∧ l'.notes = l.notes ++ "\n[" ++ format_ts now ++ "] " ++ actor ++ ": " ++ req.note
      ∧ ∃ s : String, l'.notes = l.notes ++ s := by
  unfold lead_add_note
  rw [if_neg h5, if_pos hv]
  cases hnf : req.next_follow_up with
  | none =>
      exact ⟨_, rfl, rfl,
        ⟨"\n[" ++ format_ts now ++ "] " ++ actor ++ ": " ++ req.note,
         by simp [String.append_assoc]⟩⟩
  | some t =>
      exact ⟨_, rfl, rfl,
        ⟨"\n[" ++ format_ts now ++ "] " ++ actor ++ ": " ++ req.note,
         by simp [String.append_assoc]⟩⟩

/-- Claim C8 witness: adding the note "hello" at time 7 as Admin appends one
formatted line to lead1's existing notes. -/
theorem add_note_appends_witness :
    ¬ note_req_hello.note.length < 5
    ∧ validate_next_follow_up 7 note_req_hello.next_follow_up = true
    ∧ ∃ l', lead_add_note 7 "Admin" lead1 note_req_hello = Except.ok l'
        ∧ l'.notes = lead1.notes ++ "\n[" ++ format_ts 7 ++ "] " ++ "Admin" ++ ": "
            ++ note_req_hello.note
        ∧ ∃ s : String, l'.notes = lead1.notes ++ s :=
  ⟨by decide, by decide,
   add_note_appends 7 "Admin" lead1 note_req_hello (by decide) (by decide)⟩

/-- Composing two filters filters by the conjunction of the predicates. -/
theorem filter_filter_and {α : Type} (p q : α → Bool) (xs : List α) :
    (xs.filter p).filter q = xs.filter (fun a => p a && q a) := by
  induction xs with
  | nil => rfl
  | cons x xs ih =>
      by_cases hp : p x
      · by_cases hq : q x <;> simp [List.filter_cons, hp, hq, ih]
      · simp [List.filter_cons, hp, ih]

/-- A list whose prefix yields no find? hit finds in the suffix. -/
theorem find?_append_of_none {α : Type} (p : α → Bool) (t l2 : List α)
    (h : t.find? p = none) : (t ++ l2).find? p = l2.find? p := by
  induction t with
  | nil => rfl
  | cons x xs ih =>
      by_cases hp : p x
      · rw [List.find?_cons_of_pos _ hp] at h
        exact absurd h (by simp)
      · rw [List.find?_cons_of_neg _ hp] at h
        rw [List.cons_append, List.find?_cons_of_neg _ hp]
        exact ih h

/-- Claim C2 counterexample: a bulk delete whose only id matches no lead in
scope is rejected with a not-found error rather than succeeding with an
updated count of 0, even though the request itself is valid. -/
theorem c2_counterexample :
    bulk_valid bulk_req_missing = true
    ∧ bulk_lead_actions 0 [] [lead1] bulk_req_missing
        = Except.error "No leads found with provided IDs" := by
  exact ⟨rfl, rfl⟩

/-- Claim C2 (amended): a valid bulk request matching at least one lead in
the action's scope (and, for assign_contact, naming an existing admin)
succeeds: the operation is applied to exactly the matched eligible leads and
the reported count equals the number of leads affected, so ids that are
missing or in the wrong state are skipped without an error. -/
theorem bulk_action_ok (now : Nat) (admins : List Nat) (db : List Lead)
    (req : BulkRequest)
    (hv : bulk_valid req = true)
    (hne : bulk_scope req.action db req.lead_ids ≠ [])
    (hadmin : req.action = BulkAction.assign_contact →
      ∃ v, req.contacted_by = some v ∧ admins.contains v = true) :
    bulk_lead_actions now admins db req =
      Except.ok
        (db.map (fun l => if req.lead_ids.contains l.id && bulk_eligible req.action l
                          then bulk_apply now req l else l),
         (db.filter (fun l => req.lead_ids.contains l.id
                          && bulk_eligible req.action l)).length) := by
  obtain ⟨ids, act, st, pr, cb⟩ := req
  cases act with
  | delete =>
      have hmatched : (db.filter (fun l => ids.contains l.id && !l.is_deleted)).isEmpty
          = false := by
        cases hsc : db.filter (fun l => ids.contains l.id && !l.is_deleted) with
        | nil => exact absurd hsc hne
        | cons a t => rfl
      simp only [bulk_lead_actions, bulk_scope]
      dsimp only
      rw [hv, hmatched]
      rfl
  | restore =>
      have hmatched : (db.filter (fun l => ids.contains l.id)).isEmpty = false := by
        cases hsc : db.filter (fun l => ids.contains l.id) with
        | nil => exact absurd hsc hne
        | cons a t => rfl
      simp only [bulk_lead_actions, bulk_scope]
      dsimp only
      rw [hv, hmatched, filter_filter_and]
      rfl
  | change_status =>
      cases st with
      | none => simp [bulk_valid] at hv
      | some s =>
          have hmatched : (db.filter (fun l => ids.contains l.id && !l.is_deleted)).isEmpty
              = false := by
            cases hsc : db.filter (fun l => ids.contains l.id && !l.is_deleted) with
            | nil => exact absurd hsc hne
            | cons a t => rfl
          simp only [bulk_lead_actions, bulk_scope]
          dsimp only
          rw [hv, hmatched]
          rfl
  | change_priority =>
      cases pr with
      | none => simp [bulk_valid] at hv
      | some p =>
          have hmatched : (db.filter (fun l => ids.contains l.id && !l.is_deleted)).isEmpty
              = false := by
            cases hsc : db.filter (fun l => ids.contains l.id && !l.is_deleted) with
            | nil => exact absurd hsc hne
            | cons a t => rfl
          simp only [bulk_lead_actions, bulk_scope]
          dsimp only
          rw [hv, hmatched]
          rfl
  | assign_contact =>
      cases cb with
      | none => simp [bulk_valid] at hv
      | some v0 =>
          obtain ⟨v, hcb, hcv⟩ := hadmin rfl
          have hv0 : admins.contains v0 = true := by
            have heq : some v0 = some v := hcb
            cases heq
            exact hcv
          have hmatched : (db.filter (fun l => ids.contains l.id && !l.is_deleted)).isEmpty
              = false := by
            cases hsc : db.filter (fun l => ids.contains l.id && !l.is_deleted) with
            | nil => exact absurd hsc hne
            | cons a t => rfl
          simp only [bulk_lead_actions, bulk_scope]
          dsimp only
          rw [hv, hmatched, hv0]
          rfl

/-- Claim C2 witness: bulk change_status over ids [1, 2, 999] on a table
holding leads 1 and 2 succeeds without error, updates both leads, and
reports an updated count of 2 despite the missing id 999. -/
theorem bulk_action_ok_witness :
    bulk_valid bulk_req_cs = true
    ∧ bulk_scope bulk_req_cs.action [lead1, lead2] bulk_req_cs.lead_ids ≠ []
    ∧ ([lead1, lead2].filter (fun l => bulk_req_cs.lead_ids.contains l.id
          && bulk_eligible bulk_req_cs.action l)).length = 2
    ∧ bulk_lead_actions 0 [] [lead1, lead2] bulk_req_cs =
        Except.ok
          ([lead1, lead2].map (fun l => if bulk_req_cs.lead_ids.contains l.id
                && bulk_eligible bulk_req_cs.action l
              then bulk_apply 0 bulk_req_cs l else l),
           ([lead1, lead2].filter (fun l => bulk_req_cs.lead_ids.contains l.id
                && bulk_eligible bulk_req_cs.action l)).length) :=
  ⟨by decide, by decide, by decide,
   bulk_action_ok 0 [] [lead1, lead2] bulk_req_cs (by decide) (by decide)
     (fun h => absurd h (by decide))⟩

/-- Claim C9: a valid bulk request whose ids match no lead in the action's
scope is answered with the not-found error and no lead is modified (the
executor returns before performing any action). -/
theorem bulk_zero_match (now : Nat) (admins : List Nat) (db : List Lead)
    (req : BulkRequest)
    (hv : bulk_valid req = true)
    (h0 : bulk_scope req.action db req.lead_ids = []) :
    bulk_lead_actions now admins db req
      = Except.error "No leads found with provided IDs" := by
  simp [bulk_lead_actions, hv, h0]

/-- Claim C9 witness: bulk delete of the missing id 999 over a table holding
only lead 1 matches nothing and returns the not-found error. -/
theorem bulk_zero_match_witness :
    bulk_valid bulk_req_missing = true
    ∧ bulk_scope bulk_req_missing.action [lead1] bulk_req_missing.lead_ids = []
    ∧ bulk_lead_actions 3 [] [lead1] bulk_req_missing
        = Except.error "No leads found with provided IDs" :=
  ⟨by decide, by decide,
   bulk_zero_match 3 [] [lead1] bulk_req_missing (by decide) (by decide)⟩

/-- Every table reachable through the singleton-config operations is either
empty or exactly one row with primary key 1. -/
theorem config_reachable_shape {α : Type} (d : α) (t : List (ConfigRow α))
    (h : ConfigReachable d t) : t = [] ∨ ∃ f, t = [⟨1, f⟩] := by
  induction h with
  | empty => exact Or.inl rfl
  | step_get t0 h0 ih =>
      rcases ih with rfl | ⟨f, rfl⟩
      · exact Or.inr ⟨d, rfl⟩
      · exact Or.inr ⟨f, rfl⟩
  | step_new f t0 t' h0 hsave ih =>
      rcases ih with rfl | ⟨g, rfl⟩
      · simp only [config_save_new, List.isEmpty_nil, if_true, List.nil_append,
          Except.ok.injEq] at hsave
        subst hsave
        exact Or.inr ⟨f, rfl⟩
      · simp [config_save_new] at hsave
  | step_update r t0 h0 hex ih =>
      obtain ⟨rid, rf⟩ := r
      rcases ih with rfl | ⟨g, rfl⟩
      · obtain ⟨x, hx, hid⟩ := hex
        exact absurd hx (List.not_mem_nil x)
      · obtain ⟨x, hx, hid⟩ := hex
        rw [List.mem_singleton] at hx
        subst hx
        dsimp at hid
        subst hid
        exact Or.inr ⟨rf, by simp [config_save_existing]⟩

/-- Claim C3: for the singleton-config models, (a) every table reachable via
the application's operations holds at most one row, (b) get_current is an
idempotent fetch-or-create: an immediately repeated call returns the same
row and table, and (c) saving a second new instance while a row exists fails
with the validation error. -/
theorem singleton_config {α : Type} (d : α) :
    (∀ t : List (ConfigRow α), ConfigReachable d t → t.length ≤ 1)
    ∧ (∀ (t : List (ConfigRow α)) (r : ConfigRow α) (t2 : List (ConfigRow α)),
        get_current d t = (r, t2) → get_current d t2 = (r, t2))
    ∧ (∀ (f : α) (t : List (ConfigRow α)), t ≠ [] →
        config_save_new f t = Except.error "Only one instance is allowed.") := by
  refine ⟨?_, ?_, ?_⟩
  · intro t h
    rcases config_reachable_shape d t h with rfl | ⟨f, rfl⟩
    · simp
    · simp
  · intro t r t2 hget
    cases hf : t.find? (fun row => row.id == 1) with
    | some r0 =>
        simp only [get_current, hf, Prod.mk.injEq] at hget
        obtain ⟨rfl, rfl⟩ := hget
        simp [get_current, hf]
    | none =>
        simp only [get_current, hf, Prod.mk.injEq] at hget
        obtain ⟨rfl, rfl⟩ := hget
        have hfind : (t ++ [(⟨1, d⟩ : ConfigRow α)]).find? (fun row => row.id == 1)
            = some ⟨1, d⟩ := by
          rw [find?_append_of_none _ t _ hf]
          simp
        simp [get_current, hfind]
  · intro f t ht
    cases t with
    | nil => exact absurd rfl ht
    | cons x xs => simp [config_save_new]

/-- Claim C3 witness: from the empty table, get_current creates the single
row with pk 1, a repeated get_current returns it unchanged, the invariant
gives at most one row, and saving another new instance fails. -/
theorem singleton_config_witness :
    ConfigReachable (0 : Nat) [⟨1, 0⟩]
    ∧ ([(⟨1, 0⟩ : ConfigRow Nat)]).length ≤ 1
    ∧ get_current (0 : Nat) ([] : List (ConfigRow Nat)) = (⟨1, 0⟩, [⟨1, 0⟩])
    ∧ get_current (0 : Nat) [(⟨1, 0⟩ : ConfigRow Nat)] = (⟨1, 0⟩, [⟨1, 0⟩])
    ∧ config_save_new (5 : Nat) [(⟨1, 0⟩ : ConfigRow Nat)]
        = Except.error "Only one instance is allowed." := by
  have hreach : ConfigReachable (0 : Nat) [(⟨1, 0⟩ : ConfigRow Nat)] :=
    ConfigReachable.step_get [] ConfigReachable.empty
  refine ⟨hreach, (singleton_config (0 : Nat)).1 _ hreach, rfl,
    (singleton_config (0 : Nat)).2.1 [] ⟨1, 0⟩ [⟨1, 0⟩] rfl,
    (singleton_config (0 : Nat)).2.2 5 [⟨1, 0⟩] (by simp)⟩
